import Mathlib

/-!
Verification development for the watergnd groundwater analysis engine.

The definitions below are a shallow embedding of the JavaScript source:

* `src/server/services/mlPredictionService.js` — feature extraction, the three
  availability sub-models, the ensemble predictor, prediction confidence and
  the categorical encoders;
* the trend-analysis module (Mann-Kendall / seasonality) — `detectSeasonality`;
* the groundwater-analysis module — `calculateSustainability`,
  `generateRecommendations`, `calculateUsageSuitability`.

Numbers are modelled as rationals (`ℚ`); JavaScript's `x || d` defaulting
(which also replaces the number `0` by the default, since `0` is falsy) is
modelled by `jsOr`; `Math.round` by `jsRound` (round half toward +∞);
an optional / possibly-missing object field by `Option`; a JavaScript
`TypeError` thrown on property access of `undefined` by `Except.error`.
-/

namespace Watergnd

/-- JavaScript `x || d` for an optional number `x`: the default `d` is used
both when `x` is missing (`undefined`) and when `x` is `0`, because `0` is
falsy in JavaScript. -/
def jsOr (x : Option ℚ) (d : ℚ) : ℚ :=
  match x with
  | none => d
  | some v => if v = 0 then d else v

/-- JavaScript `Math.round`: round half toward positive infinity. -/
def jsRound (q : ℚ) : ℤ := ⌊q + 1/2⌋

/-! ### Categorical encoders (`mlPredictionService.js`)

Each encoder is literally `map[key] || default` in the source, so the
defaulting goes through `jsOr`: a successful lookup that yields `0` is
falsy and is replaced by the default. -/

/-- `getStatusValue`: `{critical:0, low:1, moderate:2, good:3, excellent:4}[s] || 2`. -/
def getStatusValue (status : String) : ℚ :=
  jsOr
    (if status = "critical" then some 0
     else if status = "low" then some 1
     else if status = "moderate" then some 2
     else if status = "good" then some 3
     else if status = "excellent" then some 4
     else none) 2

/-- `getTrendValue`: `{falling:-1, stable:0, rising:1}[t] || 0`. -/
def getTrendValue (trend : String) : ℚ :=
  jsOr
    (if trend = "falling" then some (-1)
     else if trend = "stable" then some 0
     else if trend = "rising" then some 1
     else none) 0

/-- `getSignificanceValue`: significance levels encoded `0..4`, default `0`. -/
def getSignificanceValue (significance : String) : ℚ :=
  jsOr
    (if significance = "not_significant" then some 0
     else if significance = "marginally_significant" then some 1
     else if significance = "significant" then some 2
     else if significance = "very_significant" then some 3
     else if significance = "highly_significant" then some 4
     else none) 0

/-- `getInfluenceValue`: `{low:1, medium:2, high:3}[i] || 1`. -/
def getInfluenceValue (influence : String) : ℚ :=
  jsOr
    (if influence = "low" then some 1
     else if influence = "medium" then some 2
     else if influence = "high" then some 3
     else none) 1

/-- `getPermeabilityValue`: `{low:1, medium:2, high:3}[p] || 2`. -/
def getPermeabilityValue (permeability : String) : ℚ :=
  jsOr
    (if permeability = "low" then some 1
     else if permeability = "medium" then some 2
     else if permeability = "high" then some 3
     else none) 2

/-- `getAquiferTypeValue`: `{unconfined:1, confined:2, semi-confined:3, leaky:4}[a] || 1`. -/
def getAquiferTypeValue (aquiferType : String) : ℚ :=
  jsOr
    (if aquiferType = "unconfined" then some 1
     else if aquiferType = "confined" then some 2
     else if aquiferType = "semi-confined" then some 3
     else if aquiferType = "leaky" then some 4
     else none) 1

/-! ### Input records of `predictGroundwaterLevel` -/

structure LatestReading where
  waterLevel : ℚ
  waterLevelStatus : String
  metadataConfidence : Option ℚ
deriving DecidableEq

structure TechnicalDetails where
  wellDepth : Option ℚ
  aquiferType : String
deriving DecidableEq

structure Station where
  technicalDetails : Option TechnicalDetails
deriving DecidableEq

/-- `stationData`; `station = none` models `stationData.station` being
`undefined`, on which `extractFeatures` throws a `TypeError` when it reads
`stationData.station.technicalDetails`. -/
structure StationData where
  distance : ℚ
  latestReading : Option LatestReading
  station : Option Station
deriving DecidableEq

structure RainfallData where
  annual : Option ℚ
  monsoon : Option ℚ
  trend : String
deriving DecidableEq

structure RiverData where
  distance : Option ℚ
  influence : String
deriving DecidableEq

structure WaterBodyData where
  distance : Option ℚ
deriving DecidableEq

structure ProximityData where
  rivers : List RiverData
  waterBodies : List WaterBodyData
deriving DecidableEq

structure GeologyData where
  permeability : String
  depth : Option ℚ
deriving DecidableEq

structure EnvironmentalData where
  rainfall : Option RainfallData
  proximity : Option ProximityData
  geology : Option GeologyData
deriving DecidableEq

structure TrendAnalysisData where
  direction : String
  significance : String
  trend : Option ℚ
deriving DecidableEq

/-- The flat feature vector assembled by `extractFeatures`; field names follow
the keys of the JavaScript `features` object. -/
structure Features where
  latitude : ℚ
  longitude : ℚ
  distance_to_station : ℚ
  current_water_level : ℚ
  water_level_status : ℚ
  trend_direction : ℚ
  trend_significance : ℚ
  trend_magnitude : ℚ
  annual_rainfall : ℚ
  monsoon_rainfall : ℚ
  rainfall_trend : ℚ
  nearest_river_distance : ℚ
  nearest_waterbody_distance : ℚ
  river_influence : ℚ
  soil_permeability : ℚ
  aquifer_depth : ℚ
  well_depth : ℚ
  aquifer_type : ℚ
deriving DecidableEq

/-- `extractFeatures` from `mlPredictionService.js`.  All the optional inputs
are replaced by the documented defaults; the only unguarded property access is
`stationData.station.technicalDetails`, so a missing `station` makes the
function throw (`Except.error`). -/
def extractFeatures (latitude longitude : ℚ) (stationData : StationData)
    (environmentalData : EnvironmentalData) (trendAnalysis : TrendAnalysisData) :
    Except String Features :=
  match stationData.station with
  | none => .error "TypeError: cannot read technicalDetails of undefined"
  | some st =>
    let cwl : ℚ :=
      match stationData.latestReading with
      | some r => r.waterLevel
      | none => 15
    let wls : ℚ :=
      match stationData.latestReading with
      | some r => getStatusValue r.waterLevelStatus
      | none => 2
    let annual : ℚ :=
      match environmentalData.rainfall with
      | some rf => jsOr rf.annual 0
      | none => 800
    let monsoon : ℚ :=
      match environmentalData.rainfall with
      | some rf => jsOr rf.monsoon 0
      | none => 600
    let rainTrend : ℚ :=
      match environmentalData.rainfall with
      | some rf => getTrendValue rf.trend
      | none => 0
    let riverDist : ℚ :=
      match environmentalData.proximity with
      | some p => jsOr (p.rivers.head?.bind (fun r => r.distance)) 50
      | none => 50
    let waterBodyDist : ℚ :=
      match environmentalData.proximity with
      | some p => jsOr (p.waterBodies.head?.bind (fun w => w.distance)) 50
      | none => 50
    let riverInfl : ℚ :=
      match environmentalData.proximity with
      | some p =>
        match p.rivers.head? with
        | some r => getInfluenceValue r.influence
        | none => 1
      | none => 1
    let soilPerm : ℚ :=
      match environmentalData.geology with
      | some g => getPermeabilityValue g.permeability
      | none => 2
    let aquiferDepth : ℚ :=
      match environmentalData.geology with
      | some g => jsOr g.depth 20
      | none => 20
    let wellDepth : ℚ :=
      match st.technicalDetails with
      | some td => jsOr td.wellDepth 30
      | none => 30
    let aqType : ℚ :=
      match st.technicalDetails with
      | some td => getAquiferTypeValue td.aquiferType
      | none => 1
    .ok
      { latitude := latitude
        longitude := longitude
        distance_to_station := stationData.distance
        current_water_level := cwl
        water_level_status := wls
        trend_direction := getTrendValue trendAnalysis.direction
        trend_significance := getSignificanceValue trendAnalysis.significance
        trend_magnitude := |jsOr trendAnalysis.trend 0|
        annual_rainfall := annual
        monsoon_rainfall := monsoon
        rainfall_trend := rainTrend
        nearest_river_distance := riverDist
        nearest_waterbody_distance := waterBodyDist
        river_influence := riverInfl
        soil_permeability := soilPerm
        aquifer_depth := aquiferDepth
        well_depth := wellDepth
        aquifer_type := aqType }

/-- `calculateLinearAvailability`: base 50 plus fixed linear weights, clamped
to `[0, 100]`. -/
def calculateLinearAvailability (features : Features) : ℚ :=
  let score : ℚ := 50
    + (-2.5) * features.current_water_level
    + 0.05 * features.annual_rainfall
    + 0.08 * features.monsoon_rainfall
    + (-0.3) * features.nearest_river_distance
    + 15 * features.soil_permeability
    + 10 * features.trend_direction
    + 5 * features.trend_significance
  max 0 (min 100 score)

/-- `calculateWeightedAvailability`: four normalized sub-scores combined by
fixed weights summing to 1, then divided by the total weight. -/
def calculateWeightedAvailability (features : Features) : ℚ :=
  let waterLevelScore := max 0 (100 - features.current_water_level * 3)
  let rainfallScore := min 100 (features.annual_rainfall / 10 + features.monsoon_rainfall / 8)
  let proximityScore := max 0 (100 - features.nearest_river_distance * 2)
  let permeabilityScore := features.soil_permeability * 25
  let weightedSum := waterLevelScore * 0.4 + rainfallScore * 0.25
    + proximityScore * 0.2 + permeabilityScore * 0.15
  let totalWeight : ℚ := 0.4 + 0.25 + 0.2 + 0.15
  weightedSum / totalWeight

/-- `calculateTrendBasedAvailability`: base 50, ±20 for rising/falling,
`+10·significance`, extra `±15` when the magnitude exceeds 0.5, clamped. -/
def calculateTrendBasedAvailability (features : Features) : ℚ :=
  let s1 : ℚ := 50 +
    (if features.trend_direction = 1 then 20
     else if features.trend_direction = -1 then -20
     else 0)
  let s2 := s1 + features.trend_significance * 10
  let s3 := if features.trend_magnitude > 0.5 then s2 + features.trend_direction * 15 else s2
  max 0 (min 100 s3)

/-- The test `stationData.latestReading?.metadata?.confidence > 80`; a
comparison against a missing value is false in JavaScript. -/
def readingConfidenceHigh (stationData : StationData) : Bool :=
  match stationData.latestReading with
  | some r =>
    match r.metadataConfidence with
    | some mc => mc > 80
    | none => false
  | none => false

/-- `calculatePredictionConfidence`: base 50, six `+10`/`+20` data-quality
bonuses, capped at 100. -/
def calculatePredictionConfidence (features : Features) (stationData : StationData) : ℚ :=
  let c0 : ℚ := 50
  let c1 := if stationData.latestReading.isSome then c0 + 20 else c0
  let c2 := if features.annual_rainfall > 0 then c1 + 10 else c1
  let c3 := if features.nearest_river_distance < 20 then c2 + 10 else c2
  let c4 := if features.trend_significance > 2 then c3 + 10 else c3
  let c5 := if stationData.distance < 10 then c4 + 10 else c4
  let c6 := if readingConfidenceHigh stationData then c5 + 10 else c5
  min 100 c6

/-- The status bucket chain of `predictGroundwaterLevel`, applied to the
UNROUNDED ensemble score. -/
def statusForScore (s : ℚ) : String :=
  if s ≥ 80 then "excellent"
  else if s ≥ 60 then "good"
  else if s ≥ 40 then "moderate"
  else if s ≥ 20 then "low"
  else "critical"

structure Availability where
  score : ℤ
  status : String
deriving DecidableEq

structure PredictionResult where
  availability : Availability
  confidence : ℚ
  features : List String
deriving DecidableEq

/-- `Object.keys(features)` in insertion order. -/
def featureKeys : List String :=
  ["latitude", "longitude", "distance_to_station", "current_water_level",
   "water_level_status", "trend_direction", "trend_significance",
   "trend_magnitude", "annual_rainfall", "monsoon_rainfall", "rainfall_trend",
   "nearest_river_distance", "nearest_waterbody_distance", "river_influence",
   "soil_permeability", "aquifer_depth", "well_depth", "aquifer_type"]

/-- The fixed neutral fallback returned from the `catch` block. -/
def fallbackResult : PredictionResult :=
  { availability := { score := 50, status := "moderate" }
    confidence := 30
    features := ["fallback"] }

/-- `predictGroundwaterLevel`: ensemble of the three sub-models with weights
0.4/0.4/0.2; the status comes from the unrounded ensemble score and the
reported score is `Math.round` of it; any failure inside the `try` block
yields `fallbackResult`. -/
def predictGroundwaterLevel (latitude longitude : ℚ) (stationData : StationData)
    (environmentalData : EnvironmentalData) (trendAnalysis : TrendAnalysisData) :
    PredictionResult :=
  match extractFeatures latitude longitude stationData environmentalData trendAnalysis with
  | .error _ => fallbackResult
  | .ok features =>
    let linearScore := calculateLinearAvailability features
    let weightedScore := calculateWeightedAvailability features
    let trendScore := calculateTrendBasedAvailability features
    let ensembleScore := linearScore * 0.4 + weightedScore * 0.4 + trendScore * 0.2
    { availability := { score := jsRound ensembleScore, status := statusForScore ensembleScore }
      confidence := calculatePredictionConfidence features stationData
      features := featureKeys }

/-! ### Sustainability (`calculateSustainability`) -/

structure SustainabilityResult where
  yearsRemaining : ℤ
  extractionRate : ℚ
  rechargeRate : ℚ
  balance : String
deriving DecidableEq

/-- The unrounded years-remaining value computed inside
`calculateSustainability` (before `Math.round`). -/
def sustainabilityYearsRaw (lvl extractionRate rechargeRate : ℚ) : ℚ :=
  if extractionRate - rechargeRate > 0 then
    max 0 (lvl * 1000 / ((extractionRate - rechargeRate) * 365))
  else 999

/-- `calculateSustainability`: `!currentLevel` (missing or `0`, by JavaScript
falsiness) yields the `unknown` record; otherwise years remaining is rounded
`sustainabilityYearsRaw` and the balance label comes from the two threshold
tests. The destructured `trend` parameter is never used by the source. -/
def calculateSustainability (currentLevel : Option ℚ) (_trend : ℚ)
    (extractionRate rechargeRate : ℚ) : SustainabilityResult :=
  match currentLevel with
  | none =>
    { yearsRemaining := 0, extractionRate := extractionRate
      rechargeRate := rechargeRate, balance := "unknown" }
  | some lvl =>
    if lvl = 0 then
      { yearsRemaining := 0, extractionRate := extractionRate
        rechargeRate := rechargeRate, balance := "unknown" }
    else
      let netExtraction := extractionRate - rechargeRate
      let balance :=
        if netExtraction > rechargeRate * 0.1 then "deficit"
        else if rechargeRate > extractionRate * 1.1 then "surplus"
        else "balanced"
      { yearsRemaining := jsRound (sustainabilityYearsRaw lvl extractionRate rechargeRate)
        extractionRate := extractionRate
        rechargeRate := rechargeRate
        balance := balance }

/-! ### Recommendations (`generateRecommendations`) -/

structure Recommendation where
  type : String
  priority : String
  title : String
  description : String
  impact : String
  cost : String
  timeline : String
deriving DecidableEq

/-- The medium-priority enhanced-monitoring recommendation record appended by
the trend rule of `generateRecommendations`. -/
def monitoringRecommendation : Recommendation :=
  { type := "monitoring"
    priority := "medium"
    title := "Enhanced Monitoring Required"
    description := "Water levels are declining significantly. Increase monitoring frequency and consider extraction limits."
    impact := "Better decision making"
    cost := "Low"
    timeline := "1-2 months" }

/-- `generateRecommendations`: four independent rules evaluated in a fixed
order, each appending at most one record. The trend rule fires exactly when
`direction === falling` and `significance === significant` (strict string
equality in the source). -/
def generateRecommendations (availabilityScore : ℚ) (sustainabilityBalance : String)
    (rainfallAnnual : ℚ) (trendDirection trendSignificance : String) :
    List Recommendation :=
  let waterLevelRecs : List Recommendation :=
    if availabilityScore < 30 then
      [{ type := "conservation", priority := "critical"
         title := "Immediate Water Conservation Required"
         description := "Groundwater levels are critically low. Implement immediate water conservation measures."
         impact := "High water savings potential", cost := "Low to Medium"
         timeline := "Immediate" }]
    else if availabilityScore < 50 then
      [{ type := "conservation", priority := "high"
         title := "Water Conservation Measures"
         description := "Groundwater levels are low. Implement water conservation practices."
         impact := "Moderate water savings", cost := "Low"
         timeline := "1-3 months" }]
    else []
  let rechargeRecs : List Recommendation :=
    if sustainabilityBalance = "deficit" ∧ rainfallAnnual > 500 then
      [{ type := "recharge", priority := "high"
         title := "Install Rainwater Harvesting"
         description := "Set up rooftop rainwater collection systems to improve groundwater recharge during monsoon seasons."
         impact := "Can increase local water table by 15-20%", cost := "Medium"
         timeline := "3-6 months" }]
    else []
  let monitoringRecs : List Recommendation :=
    if trendDirection = "falling" ∧ trendSignificance = "significant" then
      [monitoringRecommendation]
    else []
  let irrigationRecs : List Recommendation :=
    if availabilityScore > 70 ∧ rainfallAnnual > 800 then
      [{ type := "infrastructure", priority := "low"
         title := "Water-Efficient Irrigation"
         description := "Switch to drip irrigation systems for agricultural activities. This reduces water usage by 40% while maintaining crop yields."
         impact := "40% water usage reduction", cost := "Medium"
         timeline := "6-12 months" }]
    else []
  waterLevelRecs ++ rechargeRecs ++ monitoringRecs ++ irrigationRecs

/-! ### Usage suitability (`calculateUsageSuitability`) -/

structure WaterQuality where
  ph : Option ℚ
  tds : Option ℚ
deriving DecidableEq

structure UsageEntry where
  score : ℚ
  status : String
  recommendations : List String
deriving DecidableEq

structure UsageSuitability where
  agriculture : UsageEntry
  domestic : UsageEntry
  industrial : UsageEntry
deriving DecidableEq

/-- `quality?.ph > 6.5 && quality?.ph < 8.5 ? 20 : 0`; comparisons with a
missing value are false in JavaScript. -/
def agricultureBonus (quality : Option WaterQuality) : ℚ :=
  match quality with
  | some q =>
    match q.ph with
    | some p => if 6.5 < p ∧ p < 8.5 then 20 else 0
    | none => 0
  | none => 0

/-- `quality?.tds < 500 ? 15 : 0`. -/
def domesticBonus (quality : Option WaterQuality) : ℚ :=
  match quality with
  | some q =>
    match q.tds with
    | some t => if t < 500 then 15 else 0
    | none => 0
  | none => 0

/-- `quality?.tds < 1000 ? 10 : 0`. -/
def industrialBonus (quality : Option WaterQuality) : ℚ :=
  match quality with
  | some q =>
    match q.tds with
    | some t => if t < 1000 then 10 else 0
    | none => 0
  | none => 0

/-- `calculateUsageSuitability`: `baseScore = max(0, 100 - (waterLevel || 20) * 2)`
(so a water level of exactly `0` is falsy and replaced by the default 20),
with per-purpose quality bonuses, status bands and mitigation lists. -/
def calculateUsageSuitability (waterLevel : Option ℚ) (quality : Option WaterQuality) :
    UsageSuitability :=
  let baseScore := max 0 (100 - jsOr waterLevel 20 * 2)
  { agriculture :=
      { score := min 100 (baseScore + agricultureBonus quality)
        status := if baseScore > 70 then "suitable"
          else if baseScore > 40 then "moderate" else "unsuitable"
        recommendations := if baseScore < 50 then
          ["Consider water-efficient crops", "Implement drip irrigation"] else [] }
    domestic :=
      { score := min 100 (baseScore + domesticBonus quality)
        status := if baseScore > 60 then "suitable"
          else if baseScore > 30 then "moderate" else "unsuitable"
        recommendations := if baseScore < 40 then
          ["Install water treatment", "Regular water testing"] else [] }
    industrial :=
      { score := min 100 (baseScore + industrialBonus quality)
        status := if baseScore > 50 then "suitable"
          else if baseScore > 25 then "moderate" else "unsuitable"
        recommendations := if baseScore < 30 then
          ["Water recycling systems", "Alternative water sources"] else [] } }

/-! ### Seasonality (`detectSeasonality`)

The source groups readings by `new Date(timestamp).getMonth()` (a value in
`0..11`) and iterates `Object.keys` of the resulting object; for integer-like
keys JavaScript iterates them in ascending numeric order. We embed an
observation as a pair of its value and its month index. -/

structure SeasonalityResult where
  monthlyMeans : List (ℕ × ℚ)
  peakMonth : ℕ
  lowMonth : ℕ
deriving DecidableEq

/-- `simpleStats.mean`. -/
def listMean (l : List ℚ) : ℚ := l.sum / l.length

/-- The values observed in month `m`. -/
def monthValues (obs : List (ℚ × ℕ)) (m : ℕ) : List ℚ :=
  (obs.filter (fun p => p.2 = m)).map Prod.fst

/-- The mean of the values observed in month `m` (`monthlyMeans[m]`). -/
def monthlyMean (obs : List (ℚ × ℕ)) (m : ℕ) : ℚ :=
  listMean (monthValues obs m)

/-- `Object.keys(monthlyMeans)` in JavaScript's ascending integer-key order. -/
def presentMonths (obs : List (ℚ × ℕ)) : List ℕ :=
  (List.range 12).filter (fun m => obs.any (fun p => p.2 = m))

/-- One step of the `reduce` used for `peakMonth`: keep `a` only when its mean
is strictly greater, so a tie selects the later key `b`. -/
def pickPeak (f : ℕ → ℚ) (a b : ℕ) : ℕ := if f a > f b then a else b

/-- One step of the `reduce` used for `lowMonth`. -/
def pickLow (f : ℕ → ℚ) (a b : ℕ) : ℕ := if f a < f b then a else b

/-- `detectSeasonality`: requires at least 12 observations, groups them by
month, and reports per-month means together with the peak and low months
selected by the two `reduce` folds over the month keys. -/
def detectSeasonality (obs : List (ℚ × ℕ)) : Option SeasonalityResult :=
  if obs.length < 12 then none
  else
    match presentMonths obs with
    | [] => none
    | m :: ms =>
      some
        { monthlyMeans := (m :: ms).map (fun k => (k, monthlyMean obs k))
          peakMonth := ms.foldl (pickPeak (monthlyMean obs)) m
          lowMonth := ms.foldl (pickLow (monthlyMean obs)) m }

/-! ### Definitions written from the specification's words, for comparison
with the code-derived definitions above. -/

/-- The specification's status buckets, as a function of a score:
critical for score < 20, low for 20 ≤ score < 40, moderate for 40 ≤ score < 60,
good for 60 ≤ score < 80, excellent for score ≥ 80. -/
def specStatus (s : ℚ) : String :=
  if s < 20 then "critical"
  else if s < 40 then "low"
  else if s < 60 then "moderate"
  else if s < 80 then "good"
  else "excellent"

/-- The confidence formula exactly as the claim states it: base 50 plus the
six bonuses, where the trend bonus fires for significance "significant"
OR STRONGER (encoded value ≥ 2), capped at 100. -/
def claimedConfidence (features : Features) (stationData : StationData) : ℚ :=
  min 100 (50
    + (if stationData.latestReading.isSome then 20 else 0)
    + (if features.annual_rainfall > 0 then 10 else 0)
    + (if features.nearest_river_distance < 20 then 10 else 0)
    + (if 2 ≤ features.trend_significance then 10 else 0)
    + (if stationData.distance < 10 then 10 else 0)
    + (if readingConfidenceHigh stationData then 10 else 0))

/-- The amended confidence formula: identical to `claimedConfidence` except
that the trend bonus fires only for significance STRICTLY STRONGER than
"significant" (encoded value > 2), as the code tests. -/
def amendedConfidence (features : Features) (stationData : StationData) : ℚ :=
  min 100 (50
    + (if stationData.latestReading.isSome then 20 else 0)
    + (if features.annual_rainfall > 0 then 10 else 0)
    + (if features.nearest_river_distance < 20 then 10 else 0)
    + (if 2 < features.trend_significance then 10 else 0)
    + (if stationData.distance < 10 then 10 else 0)
    + (if readingConfidenceHigh stationData then 10 else 0))

/-! ### Concrete inputs used by counterexamples and witnesses -/

/-- Station data whose latest reading is 12.9 m. -/
def sdC1 : StationData :=
  { distance := 0
    latestReading := some { waterLevel := 129/10, waterLevelStatus := "moderate", metadataConfidence := none }
    station := some { technicalDetails := none } }

/-- Environmental data: 1000 mm annual rainfall, a river 1 km away. -/
def edC1 : EnvironmentalData :=
  { rainfall := some { annual := some 1000, monsoon := some 0, trend := "stable" }
    proximity := some { rivers := [{ distance := some 1, influence := "low" }], waterBodies := [] }
    geology := none }

/-- A stable, insignificant trend. -/
def taC1 : TrendAnalysisData :=
  { direction := "stable", significance := "not_significant", trend := none }

/-- Station data with no latest reading. -/
def sdW : StationData :=
  { distance := 0, latestReading := none, station := some { technicalDetails := none } }

/-- Environmental data with every optional block missing. -/
def edW : EnvironmentalData := { rainfall := none, proximity := none, geology := none }

/-- Station data whose `station` object is missing, so `extractFeatures`
throws when reading `station.technicalDetails`. -/
def sdBad : StationData := { distance := 0, latestReading := none, station := none }

/-- The all-defaults feature vector produced by `extractFeatures 0 0 sdW edW taC1`. -/
def fDefault : Features :=
  { latitude := 0, longitude := 0, distance_to_station := 0
    current_water_level := 15, water_level_status := 2
    trend_direction := 0, trend_significance := 0, trend_magnitude := 0
    annual_rainfall := 800, monsoon_rainfall := 600, rainfall_trend := 0
    nearest_river_distance := 50, nearest_waterbody_distance := 50, river_influence := 1
    soil_permeability := 2, aquifer_depth := 20, well_depth := 30, aquifer_type := 1 }

/-- A feature vector whose trend significance encodes exactly "significant"
(value 2), with no rainfall and a distant river. -/
def fC4 : Features :=
  { fDefault with trend_significance := 2, annual_rainfall := 0 }

/-- A far station with no latest reading. -/
def sdC4 : StationData := { distance := 50, latestReading := none, station := none }

/-- Twelve observations of the same value, six in month 0 and six in
month 1, so the two monthly means tie. -/
def obs12 : List (ℚ × ℕ) :=
  [(1,0),(1,0),(1,0),(1,0),(1,0),(1,0),(1,1),(1,1),(1,1),(1,1),(1,1),(1,1)]

/-- The feature vector extracted from `sdC1`, `edC1`, `taC1`. -/
def fC1 : Features :=
  { latitude := 0, longitude := 0, distance_to_station := 0
    current_water_level := 129/10, water_level_status := 2
    trend_direction := 0, trend_significance := 0, trend_magnitude := 0
    annual_rainfall := 1000, monsoon_rainfall := 0, rainfall_trend := 0
    nearest_river_distance := 1, nearest_waterbody_distance := 50, river_influence := 1
    soil_permeability := 2, aquifer_depth := 20, well_depth := 30, aquifer_type := 1 }

/-! ## Theorems -/

lemma statusForScore_eq_specStatus (s : ℚ) : statusForScore s = specStatus s := by
  unfold statusForScore specStatus
  split_ifs <;> first | rfl | linarith

/-- C1 (counterexample): on the non-fallback path the reported status is NOT
a function of the reported rounded score via the claimed thresholds. At
this input the unrounded ensemble score is 79.628, so the status is "good",
while the reported rounded score is 80, for which the claimed thresholds
demand "excellent". -/
theorem predict_status_not_from_rounded_score :
    (predictGroundwaterLevel 0 0 sdC1 edC1 taC1).availability.score = 80 ∧
    (predictGroundwaterLevel 0 0 sdC1 edC1 taC1).availability.status = "good" ∧
    (predictGroundwaterLevel 0 0 sdC1 edC1 taC1).availability.status ≠ specStatus 80 := by
  have hex : extractFeatures 0 0 sdC1 edC1 taC1 = .ok fC1 := by
    simp [extractFeatures, sdC1, edC1, taC1, fC1, jsOr, getStatusValue, getTrendValue,
      getSignificanceValue, getInfluenceValue]
  have hL : calculateLinearAvailability fC1 = 1949/20 := by
    norm_num [calculateLinearAvailability, fC1]
  have hW : calculateWeightedAvailability fC1 = 3831/50 := by
    norm_num [calculateWeightedAvailability, fC1]
  have hT : calculateTrendBasedAvailability fC1 = 50 := by
    norm_num [calculateTrendBasedAvailability, fC1]
  have hstat : (predictGroundwaterLevel 0 0 sdC1 edC1 taC1).availability.status = "good" := by
    simp only [predictGroundwaterLevel, hex]
    rw [hL, hW, hT]
    norm_num [statusForScore]
  refine ⟨?_, hstat, ?_⟩
  · simp only [predictGroundwaterLevel, hex]
    rw [hL, hW, hT]
    norm_num [jsRound, Int.floor_eq_iff]
  · rw [hstat]
    norm_num [specStatus]
    decide

/-- C1 (amended): on the non-fallback path the reported status is a pure
deterministic function of the UNROUNDED ensemble score
`0.4·linear + 0.4·weighted + 0.2·trend` via the fixed contiguous thresholds
critical < 20 ≤ low < 40 ≤ moderate < 60 ≤ good < 80 ≤ excellent
(unambiguous at the boundary values, which belong to the upper bucket). -/
theorem predict_status_from_unrounded_score (lat lon : ℚ) (sd : StationData)
    (ed : EnvironmentalData) (ta : TrendAnalysisData) (f : Features)
    (h : extractFeatures lat lon sd ed ta = .ok f) :
    (predictGroundwaterLevel lat lon sd ed ta).availability.status =
      specStatus (calculateLinearAvailability f * 0.4 +
        calculateWeightedAvailability f * 0.4 + calculateTrendBasedAvailability f * 0.2) := by
  unfold predictGroundwaterLevel
  rw [h]
  exact statusForScore_eq_specStatus _

/-- C1 (witness): the amended theorem applied to a concrete input whose
feature extraction succeeds with the all-defaults feature vector. -/
theorem predict_status_from_unrounded_score_witness :
    (predictGroundwaterLevel 0 0 sdW edW taC1).availability.status =
      specStatus (calculateLinearAvailability fDefault * 0.4 +
        calculateWeightedAvailability fDefault * 0.4 +
        calculateTrendBasedAvailability fDefault * 0.2) :=
  predict_status_from_unrounded_score 0 0 sdW edW taC1 fDefault (by
    simp [extractFeatures, sdW, edW, taC1, fDefault, jsOr, getTrendValue, getSignificanceValue])

/-- C2: the claim says `getStatusValue "critical" = 0`, and the code's own
mapping table says so too, but `statusMap[status] || 2` replaces the falsy
lookup result `0` by the default `2`; evaluated at the failing input. -/
theorem getStatusValue_critical_is_two : getStatusValue "critical" = 2 := by decide

/-- C3: when feature extraction inside `predictGroundwaterLevel` throws, the
failure is not propagated: the predictor returns the fixed neutral fallback
(score 50, status "moderate", confidence 30, features ["fallback"]). The
predictor is a total function of its input, so it never throws to its
caller. -/
theorem predict_fallback_on_extraction_error (lat lon : ℚ) (sd : StationData)
    (ed : EnvironmentalData) (ta : TrendAnalysisData) (msg : String)
    (h : extractFeatures lat lon sd ed ta = .error msg) :
    predictGroundwaterLevel lat lon sd ed ta = fallbackResult := by
  unfold predictGroundwaterLevel
  rw [h]

/-- C3 (witness): a station record whose `station` object is missing makes
feature extraction throw, and the predictor returns the fallback. -/
theorem predict_fallback_on_extraction_error_witness :
    predictGroundwaterLevel 0 0 sdBad edW taC1 = fallbackResult :=
  predict_fallback_on_extraction_error 0 0 sdBad edW taC1
    "TypeError: cannot read technicalDetails of undefined" rfl

/-- C4 (counterexample): with trend significance exactly "significant"
(encoded 2) the code adds no +10 — `trend_significance > 2` is false — so the
computed confidence is 50 while the claimed formula gives 60. -/
theorem confidence_significant_gets_no_bonus :
    calculatePredictionConfidence fC4 sdC4 = 50 ∧
    claimedConfidence fC4 sdC4 = 60 ∧
    calculatePredictionConfidence fC4 sdC4 ≠ claimedConfidence fC4 sdC4 := by
  have h1 : calculatePredictionConfidence fC4 sdC4 = 50 := by
    norm_num [calculatePredictionConfidence, readingConfidenceHigh, fC4, fDefault, sdC4]
  have h2 : claimedConfidence fC4 sdC4 = 60 := by
    norm_num [claimedConfidence, readingConfidenceHigh, fC4, fDefault, sdC4]
  exact ⟨h1, h2, by rw [h1, h2]; norm_num⟩

/-- C4 (amended): the prediction confidence equals 50 plus the sum of the six
bonuses, where the trend bonus fires only for significance STRICTLY stronger
than "significant" (encoded value > 2), capped at 100. -/
theorem calculatePredictionConfidence_formula (f : Features) (sd : StationData) :
    calculatePredictionConfidence f sd = amendedConfidence f sd := by
  unfold calculatePredictionConfidence amendedConfidence
  split_ifs <;> norm_num

/-- C5 (counterexample): a falling trend whose significance is
"very_significant" — stronger than "significant" — does NOT trigger the
enhanced-monitoring recommendation, because the code compares with strict
string equality: no recommendation at all is produced here. -/
theorem no_monitoring_recommendation_for_stronger_significance :
    generateRecommendations 60 "balanced" 0 "falling" "very_significant" = [] := by
  norm_num [generateRecommendations]
  decide

/-- C5 (amended): the medium-priority enhanced-monitoring recommendation is
appended exactly for trend direction "falling" with significance EXACTLY
"significant" (stronger levels do not trigger the rule). -/
theorem monitoring_recommendation_when_falling_significant (score : ℚ) (balance : String)
    (rain : ℚ) (dir sig : String) (hdir : dir = "falling") (hsig : sig = "significant") :
    monitoringRecommendation ∈ generateRecommendations score balance rain dir sig ∧
    monitoringRecommendation.type = "monitoring" ∧
    monitoringRecommendation.priority = "medium" := by
  subst hdir hsig
  refine ⟨?_, rfl, rfl⟩
  unfold generateRecommendations
  apply List.mem_append_left
  apply List.mem_append_right
  rw [if_pos ⟨rfl, rfl⟩]
  exact List.mem_singleton_self _

/-- C5 (witness): the amended theorem at a concrete analysis input. -/
theorem monitoring_recommendation_witness :
    monitoringRecommendation ∈ generateRecommendations 60 "balanced" 0 "falling" "significant" :=
  (monitoring_recommendation_when_falling_significant 60 "balanced" 0 "falling" "significant"
    rfl rfl).1

/-- C6 (counterexample): the REPORTED (rounded) years remaining is not
strictly decreasing in the extraction rate: with current level 1 and recharge
0, extraction rates 1000 and 2000 both exceed recharge, yet both report 0
years remaining after rounding. -/
theorem sustainability_rounded_years_not_strictly_decreasing :
    (1000:ℚ) - 0 > 0 ∧ (1000:ℚ) < 2000 ∧
    (calculateSustainability (some 1) 0 2000 0).yearsRemaining =
      (calculateSustainability (some 1) 0 1000 0).yearsRemaining := by
  refine ⟨by norm_num, by norm_num, ?_⟩
  norm_num [calculateSustainability, sustainabilityYearsRaw, jsRound, Int.floor_eq_iff]

/-- C6 (amended): `calculateSustainability` returns years remaining 0 with
balance "unknown" when the current level is missing; returns 999 when
recharge ≥ extraction (current level present and nonzero); and, holding level
and recharge fixed with extraction exceeding recharge, the UNROUNDED years
remaining strictly decreases as extraction increases while the reported
(rounded) value is monotonically non-increasing. -/
theorem calculateSustainability_properties :
    (∀ t e r, calculateSustainability none t e r =
      { yearsRemaining := 0, extractionRate := e, rechargeRate := r, balance := "unknown" }) ∧
    (∀ l t e r, l ≠ 0 → e ≤ r → (calculateSustainability (some l) t e r).yearsRemaining = 999) ∧
    (∀ l t e₁ e₂ r, 0 < l → r < e₁ → e₁ < e₂ →
      sustainabilityYearsRaw l e₂ r < sustainabilityYearsRaw l e₁ r ∧
      (calculateSustainability (some l) t e₂ r).yearsRemaining ≤
        (calculateSustainability (some l) t e₁ r).yearsRemaining) := by
  refine ⟨fun t e r => rfl, ?_, ?_⟩
  · intro l t e r hl he
    have hne : ¬ (e - r > 0) := by linarith
    simp only [calculateSustainability, if_neg hl]
    simp only [sustainabilityYearsRaw, if_neg hne]
    norm_num [jsRound, Int.floor_eq_iff]
  · intro l t e₁ e₂ r h0 h1 h2
    have hb1 : (0:ℚ) < e₁ - r := by linarith
    have hb2 : (0:ℚ) < e₂ - r := by linarith
    have hx1 : (0:ℚ) < l * 1000 / ((e₁ - r) * 365) := by positivity
    have hx2 : (0:ℚ) < l * 1000 / ((e₂ - r) * 365) := by positivity
    have hlt : sustainabilityYearsRaw l e₂ r < sustainabilityYearsRaw l e₁ r := by
      simp only [sustainabilityYearsRaw, if_pos hb1, if_pos hb2]
      rw [max_eq_right hx1.le, max_eq_right hx2.le]
      apply div_lt_div_of_pos_left
      · positivity
      · positivity
      · nlinarith
    refine ⟨hlt, ?_⟩
    have hln : l ≠ 0 := ne_of_gt h0
    simp only [calculateSustainability, if_neg hln]
    simp only [jsRound]
    exact Int.floor_le_floor (by linarith)

/-- C6 (witness): the three parts of the amended theorem at concrete
inputs. -/
theorem calculateSustainability_properties_witness :
    (calculateSustainability none 0 5 3 =
      { yearsRemaining := 0, extractionRate := 5, rechargeRate := 3, balance := "unknown" }) ∧
    (calculateSustainability (some 2) 0 1 3).yearsRemaining = 999 ∧
    (sustainabilityYearsRaw 1 3 1 < sustainabilityYearsRaw 1 2 1 ∧
      (calculateSustainability (some 1) 0 3 1).yearsRemaining ≤
        (calculateSustainability (some 1) 0 2 1).yearsRemaining) :=
  ⟨calculateSustainability_properties.1 0 5 3,
   calculateSustainability_properties.2.1 2 0 1 3 (by norm_num) (by norm_num),
   calculateSustainability_properties.2.2 1 0 2 3 1 (by norm_num) (by norm_num) (by norm_num)⟩

lemma agricultureBonus_nonneg (q : Option WaterQuality) : 0 ≤ agricultureBonus q := by
  unfold agricultureBonus
  repeat' split
  all_goals norm_num

lemma domesticBonus_nonneg (q : Option WaterQuality) : 0 ≤ domesticBonus q := by
  unfold domesticBonus
  repeat' split
  all_goals norm_num

lemma industrialBonus_nonneg (q : Option WaterQuality) : 0 ≤ industrialBonus q := by
  unfold industrialBonus
  repeat' split
  all_goals norm_num

lemma usageScore_mono (b : ℚ) (hb : 0 ≤ b) (l₁ l₂ : ℚ) (h12 : l₁ ≤ l₂) (h1 : l₁ ≠ 0) :
    min 100 (max 0 (100 - jsOr (some l₂) 20 * 2) + b) ≤
      min 100 (max 0 (100 - jsOr (some l₁) 20 * 2) + b) := by
  have e1 : jsOr (some l₁) 20 = l₁ := by simp [jsOr, h1]
  by_cases h2 : l₂ = 0
  · have hl1 : l₁ < 0 := lt_of_le_of_ne (h2 ▸ h12) h1
    have e2 : jsOr (some l₂) 20 = 20 := by simp [jsOr, h2]
    rw [e1, e2]
    have hup : (100:ℚ) ≤ max 0 (100 - l₁ * 2) + b :=
      le_add_of_le_of_nonneg (le_max_of_le_right (by linarith)) hb
    calc min 100 (max 0 (100 - 20 * 2) + b) ≤ 100 := min_le_left _ _
    _ = min 100 (max 0 (100 - l₁ * 2) + b) := (min_eq_left hup).symm
  · have e2 : jsOr (some l₂) 20 = l₂ := by simp [jsOr, h2]
    rw [e1, e2]
    apply min_le_min le_rfl
    apply add_le_add_right
    apply max_le_max le_rfl
    linarith

/-- C7 (counterexample): the usage-suitability scores are not monotonically
non-increasing in the water level over all levels: a level of exactly 0 is
falsy and replaced by the default 20, so the agriculture score at level 0
(namely 60) is LOWER than at level 10 (namely 80), even though 0 ≤ 10. -/
theorem usageSuitability_not_monotone_at_zero :
    (0:ℚ) ≤ 10 ∧
    (calculateUsageSuitability (some 0) none).agriculture.score <
      (calculateUsageSuitability (some 10) none).agriculture.score := by
  refine ⟨by norm_num, ?_⟩
  norm_num [calculateUsageSuitability, agricultureBonus, jsOr]

/-- C7 (amended): holding quality fixed, each of the agriculture, domestic
and industrial suitability scores is monotonically non-increasing in the
water level for levels l₁ ≤ l₂ with l₁ ≠ 0 (level 0 is excluded because
JavaScript falsiness replaces it by the default 20). -/
theorem calculateUsageSuitability_monotone (l₁ l₂ : ℚ) (q : Option WaterQuality)
    (h12 : l₁ ≤ l₂) (h1 : l₁ ≠ 0) :
    (calculateUsageSuitability (some l₂) q).agriculture.score ≤
      (calculateUsageSuitability (some l₁) q).agriculture.score ∧
    (calculateUsageSuitability (some l₂) q).domestic.score ≤
      (calculateUsageSuitability (some l₁) q).domestic.score ∧
    (calculateUsageSuitability (some l₂) q).industrial.score ≤
      (calculateUsageSuitability (some l₁) q).industrial.score :=
  ⟨usageScore_mono (agricultureBonus q) (agricultureBonus_nonneg q) l₁ l₂ h12 h1,
   usageScore_mono (domesticBonus q) (domesticBonus_nonneg q) l₁ l₂ h12 h1,
   usageScore_mono (industrialBonus q) (industrialBonus_nonneg q) l₁ l₂ h12 h1⟩

/-- C7 (witness): monotonicity at the concrete levels 5 ≤ 30. -/
theorem calculateUsageSuitability_monotone_witness :
    (calculateUsageSuitability (some 30) none).agriculture.score ≤
      (calculateUsageSuitability (some 5) none).agriculture.score ∧
    (calculateUsageSuitability (some 30) none).domestic.score ≤
      (calculateUsageSuitability (some 5) none).domestic.score ∧
    (calculateUsageSuitability (some 30) none).industrial.score ≤
      (calculateUsageSuitability (some 5) none).industrial.score :=
  calculateUsageSuitability_monotone 5 30 none (by norm_num) (by norm_num)

/-- C10: `calculateUsageSuitability` treats a water level of exactly 0 as
absent (JavaScript falsiness) and substitutes the default 20: the output at
level 0 equals the output at level 20 for every quality input, with base
score 60 rather than the 100 that `max(0, 100 − 2·level)` would give at
level 0. -/
theorem usageSuitability_level_zero_is_default :
    (∀ q, calculateUsageSuitability (some 0) q = calculateUsageSuitability (some 20) q) ∧
    (calculateUsageSuitability (some 0) none).domestic.score = 60 := by
  constructor
  · intro q
    simp [calculateUsageSuitability, jsOr]
  · norm_num [calculateUsageSuitability, domesticBonus, jsOr]

/-- C8: for every feature vector within the documented input ranges, each of
the three sub-model scores and the 0.4/0.4/0.2 ensemble score lie in
[0, 100]. -/
theorem submodel_scores_in_range (f : Features)
    (hcwl : 0 ≤ f.current_water_level) (har : 0 ≤ f.annual_rainfall)
    (hmr : 0 ≤ f.monsoon_rainfall) (hnrd : 0 ≤ f.nearest_river_distance)
    (hsp1 : 1 ≤ f.soil_permeability) (hsp3 : f.soil_permeability ≤ 3)
    (hts0 : 0 ≤ f.trend_significance) (hts4 : f.trend_significance ≤ 4) :
    (0 ≤ calculateLinearAvailability f ∧ calculateLinearAvailability f ≤ 100) ∧
    (0 ≤ calculateWeightedAvailability f ∧ calculateWeightedAvailability f ≤ 100) ∧
    (0 ≤ calculateTrendBasedAvailability f ∧ calculateTrendBasedAvailability f ≤ 100) ∧
    (0 ≤ calculateLinearAvailability f * 0.4 + calculateWeightedAvailability f * 0.4 +
        calculateTrendBasedAvailability f * 0.2 ∧
      calculateLinearAvailability f * 0.4 + calculateWeightedAvailability f * 0.4 +
        calculateTrendBasedAvailability f * 0.2 ≤ 100) := by
  have hclampL : ∀ s : ℚ, 0 ≤ max 0 (min 100 s) := fun s => le_max_left _ _
  have hclampU : ∀ s : ℚ, max 0 (min 100 s) ≤ 100 :=
    fun s => max_le (by norm_num) (min_le_left _ _)
  have hLin : 0 ≤ calculateLinearAvailability f ∧ calculateLinearAvailability f ≤ 100 :=
    ⟨hclampL _, hclampU _⟩
  have hTrd : 0 ≤ calculateTrendBasedAvailability f ∧
      calculateTrendBasedAvailability f ≤ 100 :=
    ⟨hclampL _, hclampU _⟩
  have hWgt : 0 ≤ calculateWeightedAvailability f ∧ calculateWeightedAvailability f ≤ 100 := by
    unfold calculateWeightedAvailability
    have h1 : 0 ≤ max 0 (100 - f.current_water_level * 3) := le_max_left _ _
    have h1u : max 0 (100 - f.current_water_level * 3) ≤ 100 :=
      max_le (by norm_num) (by linarith)
    have h2 : 0 ≤ min 100 (f.annual_rainfall / 10 + f.monsoon_rainfall / 8) :=
      le_min (by norm_num) (by positivity)
    have h2u : min 100 (f.annual_rainfall / 10 + f.monsoon_rainfall / 8) ≤ 100 :=
      min_le_left _ _
    have h3 : 0 ≤ max 0 (100 - f.nearest_river_distance * 2) := le_max_left _ _
    have h3u : max 0 (100 - f.nearest_river_distance * 2) ≤ 100 :=
      max_le (by norm_num) (by linarith)
    constructor <;> · norm_num; linarith
  exact ⟨hLin, hWgt, hTrd, by linarith [hLin.1, hWgt.1, hTrd.1],
    by linarith [hLin.2, hWgt.2, hTrd.2]⟩

/-- C8 (witness): the range bounds at the all-defaults feature vector. -/
theorem submodel_scores_in_range_witness :
    (0 ≤ calculateLinearAvailability fDefault ∧ calculateLinearAvailability fDefault ≤ 100) ∧
    (0 ≤ calculateWeightedAvailability fDefault ∧
      calculateWeightedAvailability fDefault ≤ 100) ∧
    (0 ≤ calculateTrendBasedAvailability fDefault ∧
      calculateTrendBasedAvailability fDefault ≤ 100) ∧
    (0 ≤ calculateLinearAvailability fDefault * 0.4 +
        calculateWeightedAvailability fDefault * 0.4 +
        calculateTrendBasedAvailability fDefault * 0.2 ∧
      calculateLinearAvailability fDefault * 0.4 +
        calculateWeightedAvailability fDefault * 0.4 +
        calculateTrendBasedAvailability fDefault * 0.2 ≤ 100) :=
  submodel_scores_in_range fDefault (by norm_num [fDefault]) (by norm_num [fDefault])
    (by norm_num [fDefault]) (by norm_num [fDefault]) (by norm_num [fDefault])
    (by norm_num [fDefault]) (by norm_num [fDefault]) (by norm_num [fDefault])

lemma foldl_pickPeak_spec (f : ℕ → ℚ) :
    ∀ (l : List ℕ) (a : ℕ), List.Sorted (· < ·) (a :: l) →
      (l.foldl (pickPeak f) a = a ∨ l.foldl (pickPeak f) a ∈ l) ∧
      ∀ x, (x = a ∨ x ∈ l) →
        f x ≤ f (l.foldl (pickPeak f) a) ∧
        (f x = f (l.foldl (pickPeak f) a) → x ≤ l.foldl (pickPeak f) a) := by
  intro l
  induction l with
  | nil =>
    intro a _
    refine ⟨Or.inl rfl, ?_⟩
    intro x hx
    rcases hx with h | h
    · subst h; exact ⟨le_rfl, fun _ => le_rfl⟩
    · cases h
  | cons b t ih =>
    intro a hs
    have hab : a < b := (List.sorted_cons.mp hs).1 b (List.mem_cons_self b t)
    have ha_t : ∀ y ∈ t, a < y := fun y hy =>
      (List.sorted_cons.mp hs).1 y (List.mem_cons_of_mem b hy)
    have hsort_bt : List.Sorted (· < ·) (b :: t) := (List.sorted_cons.mp hs).2
    rw [List.foldl_cons]
    by_cases hfb : f a > f b
    · rw [show pickPeak f a b = a from if_pos hfb]
      have hsort_at : List.Sorted (· < ·) (a :: t) := by
        rw [List.sorted_cons]
        exact ⟨ha_t, (List.sorted_cons.mp hsort_bt).2⟩
      have IH := ih a hsort_at
      constructor
      · rcases IH.1 with h | h
        · exact Or.inl h
        · exact Or.inr (List.mem_cons_of_mem b h)
      · intro x hx
        rcases hx with h | h
        · exact IH.2 x (Or.inl h)
        · rcases List.mem_cons.mp h with h' | h'
          · subst h'
            have hres : f a ≤ f (t.foldl (pickPeak f) a) := (IH.2 a (Or.inl rfl)).1
            have h1 : f x < f (t.foldl (pickPeak f) a) := lt_of_lt_of_le hfb hres
            exact ⟨h1.le, fun hEq => absurd hEq (ne_of_lt h1)⟩
          · exact IH.2 x (Or.inr h')
    · rw [show pickPeak f a b = b from if_neg hfb]
      have IH := ih b hsort_bt
      constructor
      · rcases IH.1 with h | h
        · exact Or.inr (List.mem_cons.mpr (Or.inl h))
        · exact Or.inr (List.mem_cons_of_mem b h)
      · intro x hx
        rcases hx with h | h
        · subst h
          have hfa : f x ≤ f b := not_lt.mp hfb
          have hres : f b ≤ f (t.foldl (pickPeak f) b) := (IH.2 b (Or.inl rfl)).1
          have hlt : x < t.foldl (pickPeak f) b := by
            rcases IH.1 with h' | h'
            · rw [h']; exact hab
            · exact ha_t _ h'
          exact ⟨le_trans hfa hres, fun _ => hlt.le⟩
        · exact IH.2 x (List.mem_cons.mp h)

lemma foldl_pickLow_spec (f : ℕ → ℚ) :
    ∀ (l : List ℕ) (a : ℕ), List.Sorted (· < ·) (a :: l) →
      (l.foldl (pickLow f) a = a ∨ l.foldl (pickLow f) a ∈ l) ∧
      ∀ x, (x = a ∨ x ∈ l) →
        f (l.foldl (pickLow f) a) ≤ f x ∧
        (f x = f (l.foldl (pickLow f) a) → x ≤ l.foldl (pickLow f) a) := by
  intro l
  induction l with
  | nil =>
    intro a _
    refine ⟨Or.inl rfl, ?_⟩
    intro x hx
    rcases hx with h | h
    · subst h; exact ⟨le_rfl, fun _ => le_rfl⟩
    · cases h
  | cons b t ih =>
    intro a hs
    have hab : a < b := (List.sorted_cons.mp hs).1 b (List.mem_cons_self b t)
    have ha_t : ∀ y ∈ t, a < y := fun y hy =>
      (List.sorted_cons.mp hs).1 y (List.mem_cons_of_mem b hy)
    have hsort_bt : List.Sorted (· < ·) (b :: t) := (List.sorted_cons.mp hs).2
    rw [List.foldl_cons]
    by_cases hfb : f a < f b
    · rw [show pickLow f a b = a from if_pos hfb]
      have hsort_at : List.Sorted (· < ·) (a :: t) := by
        rw [List.sorted_cons]
        exact ⟨ha_t, (List.sorted_cons.mp hsort_bt).2⟩
      have IH := ih a hsort_at
      constructor
      · rcases IH.1 with h | h
        · exact Or.inl h
        · exact Or.inr (List.mem_cons_of_mem b h)
      · intro x hx
        rcases hx with h | h
        · exact IH.2 x (Or.inl h)
        · rcases List.mem_cons.mp h with h' | h'
          · subst h'
            have hres : f (t.foldl (pickLow f) a) ≤ f a := (IH.2 a (Or.inl rfl)).1
            have h1 : f (t.foldl (pickLow f) a) < f x := lt_of_le_of_lt hres hfb
            exact ⟨h1.le, fun hEq => absurd hEq.symm (ne_of_lt h1)⟩
          · exact IH.2 x (Or.inr h')
    · rw [show pickLow f a b = b from if_neg hfb]
      have IH := ih b hsort_bt
      constructor
      · rcases IH.1 with h | h
        · exact Or.inr (List.mem_cons.mpr (Or.inl h))
        · exact Or.inr (List.mem_cons_of_mem b h)
      · intro x hx
        rcases hx with h | h
        · subst h
          have hfa : f b ≤ f x := not_lt.mp hfb
          have hres : f (t.foldl (pickLow f) b) ≤ f b := (IH.2 b (Or.inl rfl)).1
          have hlt : x < t.foldl (pickLow f) b := by
            rcases IH.1 with h' | h'
            · rw [h']; exact hab
            · exact ha_t _ h'
          exact ⟨le_trans hres hfa, fun _ => hlt.le⟩
        · exact IH.2 x (List.mem_cons.mp h)

lemma presentMonths_sorted (obs : List (ℚ × ℕ)) :
    List.Sorted (· < ·) (presentMonths obs) :=
  (List.sorted_lt_range 12).filter _

lemma monthlyMean_obs12_zero : monthlyMean obs12 0 = 1 := by
  have hmv : monthValues obs12 0 = [1,1,1,1,1,1] := by decide
  rw [monthlyMean, hmv]
  norm_num [listMean]

lemma monthlyMean_obs12_one : monthlyMean obs12 1 = 1 := by
  have hmv : monthValues obs12 1 = [1,1,1,1,1,1] := by decide
  rw [monthlyMean, hmv]
  norm_num [listMean]

lemma detectSeasonality_obs12_eq :
    detectSeasonality obs12 =
      some { monthlyMeans := [(0,1),(1,1)], peakMonth := 1, lowMonth := 1 } := by
  have hlen : ¬ (obs12.length < 12) := by decide
  have hpm : presentMonths obs12 = [0, 1] := by decide
  simp only [detectSeasonality, if_neg hlen, hpm]
  simp only [List.foldl_cons, List.foldl_nil, List.map_cons, List.map_nil]
  simp only [pickPeak, pickLow]
  rw [monthlyMean_obs12_zero, monthlyMean_obs12_one]
  norm_num

/-- C9 (counterexample): on twelve observations split between months 0 and 1
with EQUAL monthly means, `detectSeasonality` reports peak month 1 and low
month 1 — the tie goes to the LAST month key, not to the lowest
(first-encountered) index 0 that the claim demands. -/
theorem detectSeasonality_tie_goes_to_last :
    detectSeasonality obs12 =
      some { monthlyMeans := [(0,1),(1,1)], peakMonth := 1, lowMonth := 1 } ∧
    monthlyMean obs12 0 = monthlyMean obs12 1 :=
  ⟨detectSeasonality_obs12_eq, by rw [monthlyMean_obs12_zero, monthlyMean_obs12_one]⟩

/-- C9 (amended): whenever `detectSeasonality` produces a verdict, the peak
month is a present month of maximal monthly mean and the low month one of
minimal monthly mean, and a tie on the mean is broken by the HIGHEST
(last-encountered in the ascending iteration over month keys) month index. -/
theorem detectSeasonality_peak_low (obs : List (ℚ × ℕ)) (r : SeasonalityResult)
    (h : detectSeasonality obs = some r) :
    (r.peakMonth ∈ presentMonths obs ∧
      ∀ m ∈ presentMonths obs, monthlyMean obs m ≤ monthlyMean obs r.peakMonth ∧
        (monthlyMean obs m = monthlyMean obs r.peakMonth → m ≤ r.peakMonth)) ∧
    (r.lowMonth ∈ presentMonths obs ∧
      ∀ m ∈ presentMonths obs, monthlyMean obs r.lowMonth ≤ monthlyMean obs m ∧
        (monthlyMean obs m = monthlyMean obs r.lowMonth → m ≤ r.lowMonth)) := by
  unfold detectSeasonality at h
  by_cases hlen : obs.length < 12
  · rw [if_pos hlen] at h; cases h
  rw [if_neg hlen] at h
  rcases hpm : presentMonths obs with _ | ⟨m, ms⟩
  · rw [hpm] at h; cases h
  rw [hpm] at h
  injection h with h'
  subst h'
  have hsorted : List.Sorted (· < ·) (m :: ms) := hpm ▸ presentMonths_sorted obs
  have hpeak := foldl_pickPeak_spec (monthlyMean obs) ms m hsorted
  have hlow := foldl_pickLow_spec (monthlyMean obs) ms m hsorted
  constructor
  · constructor
    · rcases hpeak.1 with h' | h'
      · exact List.mem_cons.mpr (Or.inl h')
      · exact List.mem_cons_of_mem _ h'
    · intro x hx
      exact hpeak.2 x (List.mem_cons.mp hx)
  · constructor
    · rcases hlow.1 with h' | h'
      · exact List.mem_cons.mpr (Or.inl h')
      · exact List.mem_cons_of_mem _ h'
    · intro x hx
      exact hlow.2 x (List.mem_cons.mp hx)

/-- C9 (witness): the amended theorem applied to the concrete tied series:
month 1 is present and carries a maximal mean. -/
theorem detectSeasonality_peak_low_witness :
    (1:ℕ) ∈ presentMonths obs12 ∧ monthlyMean obs12 0 ≤ monthlyMean obs12 1 :=
  ⟨(detectSeasonality_peak_low obs12 _ detectSeasonality_obs12_eq).1.1,
   ((detectSeasonality_peak_low obs12 _ detectSeasonality_obs12_eq).1.2 0 (by decide)).1⟩

end Watergnd
